import Mathlib

/-!
Verification of the daemon-supervision glue of the Orion repository.

The repository ships two variants of the daemon module:
* `app/daemon.js` — the main variant, whose ambient state is the Electron
  application root, the user's home directory and the filesystem; and
* the settings-aware variant (an unnamed source file), whose ambient state is
  the persisted `electron-settings` store.

Both are embedded shallowly below: each JavaScript function becomes a Lean
function over an explicit record of exactly the ambient state that the source
function reads; subprocess spawns and timer-driven resolution become explicit
event data returned by the function.
-/

namespace Orion

/-- Ambient state read by the functions of `app/daemon.js`: the Electron app
root (`app-root-dir`), the user home directory (`app.getPath('home')`) and the
filesystem existence predicate (`fs.existsSync`). -/
structure Env where
  appRoot : String
  home : String
  fsExists : String → Bool

/-- The persisted `electron-settings` keys read by the settings-aware variant:
`daemon.pathIPFSBinary`, `daemon.startIPFSAtStartup`, `daemon.multiAddrAPI`.
`none` models an unset key (`getSync` returning `undefined`). -/
structure OrionSettings where
  pathIPFSBinary : Option String
  startIPFSAtStartup : Option Bool
  multiAddrAPI : Option String
deriving DecidableEq

/-- JavaScript `v || d` on a possibly-unset string setting: an unset key
(`undefined`) and the empty string are falsy, anything else is returned. -/
def jsOrDefault (v : Option String) (d : String) : String :=
  match v with
  | some s => if s = "" then d else s
  | none => d

/-- A recorded `spawn(cmd, args)` call. -/
structure SpawnCall where
  cmd : String
  args : List String
deriving DecidableEq

/-- Observable actions of the daemon-start routines: spawning a child process,
opening the temporary log file, resolving the returned promise (with the
process handle, or with `undefined` modelled as `none`), or probing the daemon
for readiness (never performed by the source; present so that its absence is
expressible). -/
inductive DaemonAction where
  | spawnProc (p : SpawnCall)
  | openLogFile
  | resolveHandle (h : Option SpawnCall)
  | probeReadiness
deriving DecidableEq

/-- Effects of a `close`-event handler: whether `dialog.showErrorBox` was
called and whether `app.quit()` was called. -/
structure CloseEffects where
  errorShown : Bool
  appQuit : Bool
deriving DecidableEq

/-- `getPathIPFSBinary` of `app/daemon.js`:
returns `` `${getAppRoot()}/go-ipfs/ipfs` ``. -/
def getPathIPFSBinary (env : Env) : String :=
  env.appRoot ++ "/go-ipfs/ipfs"

/-- `getPathIPFSBinary` of the settings-aware variant:
`Settings.getSync('daemon.pathIPFSBinary') || '/usr/local/bin/ipfs'`. -/
def getPathIPFSBinarySettings (st : OrionSettings) : String :=
  jsOrDefault st.pathIPFSBinary "/usr/local/bin/ipfs"

/-- `path.join(home, '.ipfs', 'config')` as used by `isIPFSInitialised`. -/
def ipfsConfigPath (home : String) : String :=
  home ++ "/" ++ ".ipfs" ++ "/" ++ "config"

/-- `isIPFSInitialised` of `app/daemon.js`: `existsSync` of the repository
config file under the home directory. It is a pure read: it returns a boolean
and changes no state. -/
def isIPFSInitialised (env : Env) : Bool :=
  env.fsExists (ipfsConfigPath env.home)

/-- `ensuresIPFSInitialised` of `app/daemon.js`, projected to the spawn calls
it performs and whether it resolved immediately: if `isIPFSInitialised()` it
returns `Promise.resolve()` at once (no spawn); otherwise it spawns
`binaryPath init` once. -/
def ensuresIPFSInitialised (env : Env) : List SpawnCall × Bool :=
  if isIPFSInitialised env then ([], true)
  else ([⟨getPathIPFSBinary env, ["init"]⟩], false)

/-- The `close`-event handler installed by `startIPFSDaemon` in
`app/daemon.js`: on a non-zero exit code it shows an error box and quits the
app; it always logs the exit code. -/
def startIPFSDaemonOnClose (exit : Int) : CloseEffects :=
  if exit ≠ 0 then ⟨true, true⟩ else ⟨false, false⟩

/-- The `close`-event handler installed by `ensuresIPFSInitialised` in
`app/daemon.js`: on a non-zero exit code it shows an error box, quits the app
and rejects; it then resolves. -/
def ensuresIPFSInitialisedOnClose (exit : Int) : CloseEffects :=
  if exit ≠ 0 then ⟨true, true⟩ else ⟨false, false⟩

/-- The `close`-event handler installed by `startIPFSDaemon` in the
settings-aware variant: it only logs the exit code, for every exit code. -/
def startIPFSDaemonSettingsOnClose (_exit : Int) : CloseEffects :=
  ⟨false, false⟩

/-- The timed action trace of `startIPFSDaemon` in `app/daemon.js` (times in
milliseconds from the call): it spawns `binaryPath daemon` and opens the
temporary log file immediately, and resolves the promise with the process
handle from a `setTimeout` of `1 * 1000` milliseconds. -/
def startIPFSDaemonTrace (env : Env) : List (Nat × DaemonAction) :=
  [(0, .spawnProc ⟨getPathIPFSBinary env, ["daemon"]⟩),
   (0, .openLogFile),
   (1000, .resolveHandle (some ⟨getPathIPFSBinary env, ["daemon"]⟩))]

/-- The timed action trace of `startIPFSDaemon` in the settings-aware variant:
when `daemon.startIPFSAtStartup` is exactly `false` it returns
`Promise.resolve()` (resolved with `undefined`, no spawn); otherwise it spawns
`binaryPath daemon` and resolves the handle immediately. -/
def startIPFSDaemonSettingsTrace (st : OrionSettings) : List (Nat × DaemonAction) :=
  if st.startIPFSAtStartup = some false then
    [(0, .resolveHandle none)]
  else
    [(0, .spawnProc ⟨getPathIPFSBinarySettings st, ["daemon"]⟩),
     (0, .resolveHandle (some ⟨getPathIPFSBinarySettings st, ["daemon"]⟩))]

/-- `getMultiAddrIPFSDaemon` of `app/daemon.js`: the constant API address. -/
def getMultiAddrIPFSDaemon : String :=
  "/ip4/127.0.0.1/tcp/5001"

/-- `getMultiAddrIPFSDaemon` of the settings-aware variant: the value of
`daemon.multiAddrAPI` when truthy, otherwise the constant. -/
def getMultiAddrIPFSDaemonSettings (st : OrionSettings) : String :=
  jsOrDefault st.multiAddrAPI "/ip4/127.0.0.1/tcp/5001"

/-- The shell command executed by `setMultiAddrIPFSDaemon` in `app/daemon.js`:
`` `${binaryPath} config Addresses.API /ip4/127.0.0.1/tcp/5001` ``. -/
def setMultiAddrIPFSDaemonCmd (env : Env) : String :=
  getPathIPFSBinary env ++ " config Addresses.API /ip4/127.0.0.1/tcp/5001"

/-- The shell command executed by `setMultiAddrIPFSDaemon` in the
settings-aware variant. -/
def setMultiAddrIPFSDaemonSettingsCmd (st : OrionSettings) : String :=
  getPathIPFSBinarySettings st ++ " config Addresses.API /ip4/127.0.0.1/tcp/5001"

/-- Outcome of a `promised-exec` shell invocation: the promise resolves with
the command's output or rejects with its error. -/
inductive ExecResult where
  | success (out : String)
  | failure (err : String)
deriving DecidableEq

/-- `connectToCMD` of `app/daemon.js`: runs
`` `${binaryPath} swarm connect ${strMultiddr}` `` through `promised-exec`
(modelled by `run`) and returns its outcome. -/
def connectToCMD (run : String → ExecResult) (env : Env) (strMultiddr : String) : ExecResult :=
  run (getPathIPFSBinary env ++ " swarm connect " ++ strMultiddr)

/-- `addBootstrapAddr` of `app/daemon.js`: runs
`` `${binaryPath} bootstrap add ${strMultiddr}` `` through `promised-exec`
(modelled by `run`) and returns its outcome. -/
def addBootstrapAddr (run : String → ExecResult) (env : Env) (strMultiddr : String) : ExecResult :=
  run (getPathIPFSBinary env ++ " bootstrap add " ++ strMultiddr)

/-- JavaScript `res.split(/\r?\n/)` on the character list: each `\r\n` pair
and each bare `\n` is a separator; a `\r` not followed by `\n` stays in its
segment. -/
def splitRN : List Char → List (List Char)
  | [] => [[]]
  | '\r' :: '\n' :: rest =>
    [] :: splitRN rest
  | '\n' :: rest =>
    [] :: splitRN rest
  | c :: rest =>
    match splitRN rest with
    | [] => [[c]]
    | s :: ss => (c :: s) :: ss

/-- `res.split(/\r?\n/)` on strings. -/
def splitEndlines (s : String) : List String :=
  (splitRN s.data).map String.mk

/-- The response-body processing of `getSiderusPeers` (both variants): split
the body by endlines with `split(/\r?\n/)` and keep the lines with
`el.length > 0`. -/
def getSiderusPeers (res : String) : List String :=
  (splitEndlines res).filter (fun el => el.length > 0)

/- ------------------------------------------------------------------ -/
/- Helper lemmas                                                       -/
/- ------------------------------------------------------------------ -/

/-- A string has positive length exactly when it is not the empty string. -/
theorem string_pos_length_iff_ne_empty (s : String) : s.length > 0 ↔ s ≠ "" := by
  constructor
  · intro h hs
    subst hs
    simp at h
  · intro h
    rcases s with ⟨l⟩
    cases l with
    | nil => exact absurd rfl h
    | cons c cs => simp [String.length]

/- ------------------------------------------------------------------ -/
/- C1                                                                  -/
/- ------------------------------------------------------------------ -/

/-- Claim C1: for every HTTP response body, `getSiderusPeers` returns exactly
the lines obtained by splitting the body on `\n` or `\r\n` with every empty
line removed: the result is the filter of `splitEndlines` by non-emptiness,
it contains no empty string, and every non-empty line of the split body
appears in it. -/
theorem getSiderusPeers_spec (res : String) :
    getSiderusPeers res = (splitEndlines res).filter (fun el => el ≠ "")
    ∧ (∀ p ∈ getSiderusPeers res, p ≠ "")
    ∧ (∀ l ∈ splitEndlines res, l ≠ "" → l ∈ getSiderusPeers res) := by
  refine ⟨?_, ?_, ?_⟩
  · unfold getSiderusPeers
    apply List.filter_congr
    intro x _
    exact decide_eq_decide.mpr (string_pos_length_iff_ne_empty x)
  · intro p hp
    unfold getSiderusPeers at hp
    rw [List.mem_filter, decide_eq_true_eq] at hp
    exact (string_pos_length_iff_ne_empty p).mp hp.2
  · intro l hl hne
    unfold getSiderusPeers
    rw [List.mem_filter, decide_eq_true_eq]
    exact ⟨hl, (string_pos_length_iff_ne_empty l).mpr hne⟩

/-- Witness for C1 on the concrete body `"a\r\n\nb"`. -/
theorem getSiderusPeers_spec_witness :
    "b" ∈ getSiderusPeers "a\r\n\nb" :=
  (getSiderusPeers_spec "a\r\n\nb").2.2 "b" (by decide) (by decide)

/- ------------------------------------------------------------------ -/
/- C2                                                                  -/
/- ------------------------------------------------------------------ -/

/-- Appending on the left is cancellative for strings. -/
theorem string_append_left_cancel {a b c : String} (h : a ++ b = a ++ c) : b = c := by
  apply String.ext
  have hd : a.data ++ b.data = a.data ++ c.data := by
    rw [← String.data_append, ← String.data_append, h]
  exact List.append_cancel_left hd

/-- Counterexample to claim C2: `setMultiAddrIPFSDaemon` does not execute
`path config Addresses.API <addr>` for the caller-chosen address
`/ip4/1.2.3.4/tcp/1` (with app root `/app`): the executed command carries the
hard-coded constant address instead. -/
theorem setMultiAddrIPFSDaemon_claim_false :
    ¬ (setMultiAddrIPFSDaemonCmd ⟨"/app", "/home/orion", fun _ => true⟩ =
        getPathIPFSBinary ⟨"/app", "/home/orion", fun _ => true⟩ ++
          (" config Addresses.API " ++ "/ip4/1.2.3.4/tcp/1")) := by
  decide

/-- Amended C2: `setMultiAddrIPFSDaemon` takes no address argument; in both
variants the executed command is `path config Addresses.API <addr>` for an
address `addr` exactly when `addr` is the hard-coded constant
`/ip4/127.0.0.1/tcp/5001`, where `path` is the locator's binary path. -/
theorem setMultiAddrIPFSDaemon_amended (env : Env) (st : OrionSettings) (addr : String) :
    (setMultiAddrIPFSDaemonCmd env =
        getPathIPFSBinary env ++ (" config Addresses.API " ++ addr)
      ↔ addr = "/ip4/127.0.0.1/tcp/5001")
    ∧ (setMultiAddrIPFSDaemonSettingsCmd st =
        getPathIPFSBinarySettings st ++ (" config Addresses.API " ++ addr)
      ↔ addr = "/ip4/127.0.0.1/tcp/5001") := by
  have hsplit : (" config Addresses.API /ip4/127.0.0.1/tcp/5001" : String) =
      " config Addresses.API " ++ "/ip4/127.0.0.1/tcp/5001" := by
    decide
  constructor
  · constructor
    · intro h
      unfold setMultiAddrIPFSDaemonCmd at h
      rw [hsplit] at h
      exact (string_append_left_cancel (string_append_left_cancel h)).symm
    · intro h
      subst h
      unfold setMultiAddrIPFSDaemonCmd
      rw [hsplit]
  · constructor
    · intro h
      unfold setMultiAddrIPFSDaemonSettingsCmd at h
      rw [hsplit] at h
      exact (string_append_left_cancel (string_append_left_cancel h)).symm
    · intro h
      subst h
      unfold setMultiAddrIPFSDaemonSettingsCmd
      rw [hsplit]

/- ------------------------------------------------------------------ -/
/- C3                                                                  -/
/- ------------------------------------------------------------------ -/

/-- Counterexample to claim C3: in the settings-aware variant, when the
supervised daemon process exits with the non-zero code `1`, the close handler
neither shows a user-visible error nor terminates the application — it only
logs. -/
theorem closeHandler_claim_false :
    ¬ ((1 : Int) ≠ 0 →
        (startIPFSDaemonSettingsOnClose 1).errorShown = true ∧
        (startIPFSDaemonSettingsOnClose 1).appQuit = true) := by
  decide

/-- Amended C3: in `app/daemon.js`, both supervised children (the daemon of
`startIPFSDaemon` and the init process of `ensuresIPFSInitialised`) show an
error box and quit the app exactly on non-zero exit codes, and do neither on
exit code zero; in the settings-aware variant the daemon's close handler never
shows an error nor quits, for any exit code. -/
theorem closeHandlers_amended (exit : Int) :
    (exit ≠ 0 →
      startIPFSDaemonOnClose exit = ⟨true, true⟩ ∧
      ensuresIPFSInitialisedOnClose exit = ⟨true, true⟩)
    ∧ (exit = 0 →
      startIPFSDaemonOnClose exit = ⟨false, false⟩ ∧
      ensuresIPFSInitialisedOnClose exit = ⟨false, false⟩)
    ∧ startIPFSDaemonSettingsOnClose exit = ⟨false, false⟩ := by
  refine ⟨?_, ?_, rfl⟩
  · intro h
    simp [startIPFSDaemonOnClose, ensuresIPFSInitialisedOnClose, h]
  · intro h
    subst h
    simp [startIPFSDaemonOnClose, ensuresIPFSInitialisedOnClose]

/-- Witness for amended C3 at exit code `1`. -/
theorem closeHandlers_amended_witness :
    startIPFSDaemonOnClose 1 = ⟨true, true⟩ ∧
    startIPFSDaemonSettingsOnClose 1 = ⟨false, false⟩ :=
  ⟨((closeHandlers_amended 1).1 (by decide)).1, (closeHandlers_amended 1).2.2⟩

/- ------------------------------------------------------------------ -/
/- C4                                                                  -/
/- ------------------------------------------------------------------ -/

/-- Claim C4: `ensuresIPFSInitialised` spawns `path init` exactly when the
repository config file is absent, spawns at most once per call, and resolves
immediately with no spawn when the repository is already initialised. -/
theorem ensuresIPFSInitialised_spec (env : Env) :
    ((ensuresIPFSInitialised env).1 ≠ [] ↔ isIPFSInitialised env = false)
    ∧ (ensuresIPFSInitialised env).1.length ≤ 1
    ∧ (isIPFSInitialised env = true → ensuresIPFSInitialised env = ([], true))
    ∧ (isIPFSInitialised env = false →
        (ensuresIPFSInitialised env).1 = [⟨getPathIPFSBinary env, ["init"]⟩]) := by
  unfold ensuresIPFSInitialised
  by_cases h : isIPFSInitialised env = true
  · simp [h]
  · have h' : isIPFSInitialised env = false := by
      simpa using h
    simp [h']

/-- Witness for C4 on an environment whose filesystem contains every path. -/
theorem ensuresIPFSInitialised_spec_witness :
    ensuresIPFSInitialised ⟨"/app", "/home/orion", fun _ => true⟩ = ([], true) :=
  (ensuresIPFSInitialised_spec ⟨"/app", "/home/orion", fun _ => true⟩).2.2.1 rfl

/- ------------------------------------------------------------------ -/
/- C5                                                                  -/
/- ------------------------------------------------------------------ -/

/-- Counterexample to claim C5: in the settings-aware variant (default
settings), `startIPFSDaemon` resolves its promise with the spawned process
handle at time `0`, i.e. immediately and before any fixed positive delay
could elapse. -/
theorem startIPFSDaemon_claim_false :
    (0, DaemonAction.resolveHandle (some ⟨"/usr/local/bin/ipfs", ["daemon"]⟩)) ∈
      startIPFSDaemonSettingsTrace ⟨none, none, none⟩
    ∧ (0 : Nat) < 1000 := by
  decide

/-- Amended C5: in `app/daemon.js`, `startIPFSDaemon` spawns the binary with
the single argument `daemon`, resolves the promise with the process handle
exactly at the fixed `1000` ms delay and never probes the daemon for
readiness; in the settings-aware variant there is also no probe, but when
startup is not disabled the handle is resolved immediately at time `0`. -/
theorem startIPFSDaemon_amended (env : Env) (st : OrionSettings) :
    (startIPFSDaemonTrace env).head? =
      some (0, DaemonAction.spawnProc ⟨getPathIPFSBinary env, ["daemon"]⟩)
    ∧ (∀ t h, (t, DaemonAction.resolveHandle h) ∈ startIPFSDaemonTrace env →
        t = 1000 ∧ h = some ⟨getPathIPFSBinary env, ["daemon"]⟩)
    ∧ (∀ t, (t, DaemonAction.probeReadiness) ∉ startIPFSDaemonTrace env)
    ∧ (∀ t, (t, DaemonAction.probeReadiness) ∉ startIPFSDaemonSettingsTrace st)
    ∧ (st.startIPFSAtStartup ≠ some false →
        (0, DaemonAction.resolveHandle (some ⟨getPathIPFSBinarySettings st, ["daemon"]⟩)) ∈
          startIPFSDaemonSettingsTrace st) := by
  refine ⟨rfl, ?_, ?_, ?_, ?_⟩
  · intro t h hmem
    simp [startIPFSDaemonTrace] at hmem
    exact hmem
  · intro t
    simp [startIPFSDaemonTrace]
  · intro t
    by_cases hst : st.startIPFSAtStartup = some false
    · simp [startIPFSDaemonSettingsTrace, hst]
    · simp [startIPFSDaemonSettingsTrace, hst]
  · intro hne
    simp [startIPFSDaemonSettingsTrace, hne]

/-- Witness for amended C5: with a stored binary path and startup enabled, the
settings-aware trace resolves the handle at time `0`. -/
theorem startIPFSDaemon_amended_witness :
    (0, DaemonAction.resolveHandle
      (some ⟨getPathIPFSBinarySettings ⟨some "/opt/ipfs", some true, none⟩, ["daemon"]⟩)) ∈
      startIPFSDaemonSettingsTrace ⟨some "/opt/ipfs", some true, none⟩ :=
  (startIPFSDaemon_amended ⟨"/app", "/home/orion", fun _ => true⟩
    ⟨some "/opt/ipfs", some true, none⟩).2.2.2.2 (by decide)

/- ------------------------------------------------------------------ -/
/- C6                                                                  -/
/- ------------------------------------------------------------------ -/

/-- Claim C6: the binary locator returns the persisted setting when one is
stored (settings-aware variant), otherwise the platform default, and in
`app/daemon.js` the app-relative bundled path; its output never depends on
the filesystem, so no existence or executability check is performed. -/
theorem getPathIPFSBinary_spec (env env' : Env) (st : OrionSettings) (s : String) :
    (env.appRoot = env'.appRoot → getPathIPFSBinary env = getPathIPFSBinary env')
    ∧ getPathIPFSBinary env = env.appRoot ++ "/go-ipfs/ipfs"
    ∧ (st.pathIPFSBinary = some s → s ≠ "" → getPathIPFSBinarySettings st = s)
    ∧ (st.pathIPFSBinary = none → getPathIPFSBinarySettings st = "/usr/local/bin/ipfs")
    ∧ (st.pathIPFSBinary = some "" →
        getPathIPFSBinarySettings st = "/usr/local/bin/ipfs") := by
  refine ⟨?_, rfl, ?_, ?_, ?_⟩
  · intro h
    unfold getPathIPFSBinary
    rw [h]
  · intro hst hs
    simp [getPathIPFSBinarySettings, jsOrDefault, hst, hs]
  · intro hst
    simp [getPathIPFSBinarySettings, jsOrDefault, hst]
  · intro hst
    simp [getPathIPFSBinarySettings, jsOrDefault, hst]

/-- Witness for C6: a stored non-empty binary path is returned verbatim. -/
theorem getPathIPFSBinary_spec_witness :
    getPathIPFSBinarySettings ⟨some "/opt/bin/ipfs", none, none⟩ = "/opt/bin/ipfs" :=
  (getPathIPFSBinary_spec ⟨"/a", "/h", fun _ => false⟩ ⟨"/a", "/h", fun _ => true⟩
    ⟨some "/opt/bin/ipfs", none, none⟩ "/opt/bin/ipfs").2.2.1 rfl (by decide)

/- ------------------------------------------------------------------ -/
/- C7                                                                  -/
/- ------------------------------------------------------------------ -/

/-- Appending strings is associative. -/
theorem string_append_assoc (a b c : String) : a ++ b ++ c = a ++ (b ++ c) := by
  apply String.ext
  simp [String.data_append, List.append_assoc]

/-- Claim C7: `connectToCMD` executes exactly `path swarm connect <addr>` and
`addBootstrapAddr` exactly `path bootstrap add <addr>` (with `path` the
locator's binary path), and each passes the executed command's success or
failure through to the caller. -/
theorem connectToCMD_addBootstrapAddr_spec
    (run : String → ExecResult) (env : Env) (addr : String) :
    connectToCMD run env addr = run (getPathIPFSBinary env ++ (" swarm connect " ++ addr))
    ∧ addBootstrapAddr run env addr = run (getPathIPFSBinary env ++ (" bootstrap add " ++ addr))
    ∧ (∀ out, run (getPathIPFSBinary env ++ (" swarm connect " ++ addr)) = .success out →
        connectToCMD run env addr = .success out)
    ∧ (∀ err, run (getPathIPFSBinary env ++ (" bootstrap add " ++ addr)) = .failure err →
        addBootstrapAddr run env addr = .failure err) := by
  have hc : connectToCMD run env addr =
      run (getPathIPFSBinary env ++ (" swarm connect " ++ addr)) := by
    unfold connectToCMD
    rw [string_append_assoc]
  have hb : addBootstrapAddr run env addr =
      run (getPathIPFSBinary env ++ (" bootstrap add " ++ addr)) := by
    unfold addBootstrapAddr
    rw [string_append_assoc]
  refine ⟨hc, hb, ?_, ?_⟩
  · intro out h
    rw [hc, h]
  · intro err h
    rw [hb, h]

/-- Witness for C7: with a runner that always succeeds with output `ok`, the
connect command's success is returned to the caller. -/
theorem connectToCMD_addBootstrapAddr_spec_witness :
    connectToCMD (fun _ => .success "ok") ⟨"/app", "/home/orion", fun _ => true⟩
      "/ip4/192.168.0.22/tcp/4001" = .success "ok" :=
  (connectToCMD_addBootstrapAddr_spec (fun _ => .success "ok")
    ⟨"/app", "/home/orion", fun _ => true⟩ "/ip4/192.168.0.22/tcp/4001").2.2.1 "ok" rfl

/- ------------------------------------------------------------------ -/
/- C8                                                                  -/
/- ------------------------------------------------------------------ -/

/-- `path.join(home, '.ipfs', 'config')` is `home ++ "/.ipfs/config"`. -/
theorem ipfsConfigPath_eq (h : String) : ipfsConfigPath h = h ++ "/.ipfs/config" := by
  unfold ipfsConfigPath
  rw [string_append_assoc, string_append_assoc, string_append_assoc]
  have hlit : ("/" ++ (".ipfs" ++ ("/" ++ "config")) : String) = "/.ipfs/config" := by
    decide
  rw [hlit]

/-- Claim C8: `isIPFSInitialised` is true exactly when the file
`<homeDir>/.ipfs/config` exists, and its value depends on nothing but the home
directory and the existence of that single file (it reads no other state; as a
pure boolean-valued function it modifies nothing). -/
theorem isIPFSInitialised_reads_only_config (env : Env) :
    (isIPFSInitialised env = true ↔ env.fsExists (env.home ++ "/.ipfs/config") = true)
    ∧ (∀ env' : Env, env'.home = env.home →
        env'.fsExists (env.home ++ "/.ipfs/config") =
          env.fsExists (env.home ++ "/.ipfs/config") →
        isIPFSInitialised env' = isIPFSInitialised env) := by
  constructor
  · unfold isIPFSInitialised
    rw [ipfsConfigPath_eq]
  · intro env' hh hf
    unfold isIPFSInitialised
    rw [ipfsConfigPath_eq, ipfsConfigPath_eq, hh, hf]

/-- Witness for C8: in a filesystem containing every path, the repository is
reported initialised. -/
theorem isIPFSInitialised_reads_only_config_witness :
    isIPFSInitialised ⟨"/app", "/home/orion", fun _ => true⟩ = true :=
  (isIPFSInitialised_reads_only_config ⟨"/app", "/home/orion", fun _ => true⟩).1.mpr rfl

/- ------------------------------------------------------------------ -/
/- C9                                                                  -/
/- ------------------------------------------------------------------ -/

/-- Claim C9: in the settings-aware variant, when `daemon.startIPFSAtStartup`
is exactly `false`, `startIPFSDaemon` resolves immediately with `undefined`
(not a process handle) and spawns nothing; a process handle is resolved
exactly when the startup setting permits it. -/
theorem startIPFSDaemonSettings_startup_spec (st : OrionSettings) :
    (st.startIPFSAtStartup = some false →
      startIPFSDaemonSettingsTrace st = [(0, DaemonAction.resolveHandle none)])
    ∧ ((∃ t p, (t, DaemonAction.spawnProc p) ∈ startIPFSDaemonSettingsTrace st) ↔
        st.startIPFSAtStartup ≠ some false)
    ∧ ((∃ t p, (t, DaemonAction.resolveHandle (some p)) ∈ startIPFSDaemonSettingsTrace st) ↔
        st.startIPFSAtStartup ≠ some false) := by
  by_cases h : st.startIPFSAtStartup = some false
  · simp [startIPFSDaemonSettingsTrace, h]
  · simp [startIPFSDaemonSettingsTrace, h]

/-- Witness for C9 with the startup setting stored as `false`. -/
theorem startIPFSDaemonSettings_startup_spec_witness :
    startIPFSDaemonSettingsTrace ⟨none, some false, none⟩ =
      [(0, DaemonAction.resolveHandle none)] :=
  (startIPFSDaemonSettings_startup_spec ⟨none, some false, none⟩).1 rfl

/- ------------------------------------------------------------------ -/
/- C10                                                                 -/
/- ------------------------------------------------------------------ -/

/-- Claim C10: the API-address setter always configures the hard-coded
constant `/ip4/127.0.0.1/tcp/5001` (regardless of any caller input — it takes
none), and the getter returns that same constant whenever no user setting
overrides it, so after a set with no override, a get returns the value set. -/
theorem multiAddr_get_set_agree (env : Env) (st : OrionSettings) :
    getMultiAddrIPFSDaemon = "/ip4/127.0.0.1/tcp/5001"
    ∧ setMultiAddrIPFSDaemonCmd env =
        getPathIPFSBinary env ++ (" config Addresses.API " ++ getMultiAddrIPFSDaemon)
    ∧ ((st.multiAddrAPI = none ∨ st.multiAddrAPI = some "") →
        getMultiAddrIPFSDaemonSettings st = getMultiAddrIPFSDaemon
        ∧ setMultiAddrIPFSDaemonSettingsCmd st =
            getPathIPFSBinarySettings st ++
              (" config Addresses.API " ++ getMultiAddrIPFSDaemonSettings st)) := by
  have hsplit : (" config Addresses.API /ip4/127.0.0.1/tcp/5001" : String) =
      " config Addresses.API " ++ "/ip4/127.0.0.1/tcp/5001" := by
    decide
  refine ⟨rfl, ?_, ?_⟩
  · unfold setMultiAddrIPFSDaemonCmd
    rw [hsplit]
    rfl
  · intro h
    have hg : getMultiAddrIPFSDaemonSettings st = getMultiAddrIPFSDaemon := by
      rcases h with h | h
      · simp [getMultiAddrIPFSDaemonSettings, jsOrDefault, getMultiAddrIPFSDaemon, h]
      · simp [getMultiAddrIPFSDaemonSettings, jsOrDefault, getMultiAddrIPFSDaemon, h]
    refine ⟨hg, ?_⟩
    rw [hg]
    unfold setMultiAddrIPFSDaemonSettingsCmd
    rw [hsplit]
    rfl

/-- Witness for C10 with no stored override: the getter returns exactly what
the setter configures. -/
theorem multiAddr_get_set_agree_witness :
    getMultiAddrIPFSDaemonSettings ⟨none, none, none⟩ = getMultiAddrIPFSDaemon :=
  ((multiAddr_get_set_agree ⟨"/app", "/home/orion", fun _ => true⟩
    ⟨none, none, none⟩).2.2 (Or.inl rfl)).1

/-- Witness for amended C2 at a concrete app root: the executed command is the
`config Addresses.API` command for the constant address. -/
theorem setMultiAddrIPFSDaemon_amended_witness :
    setMultiAddrIPFSDaemonCmd ⟨"/app", "/home/orion", fun _ => true⟩ =
      getPathIPFSBinary ⟨"/app", "/home/orion", fun _ => true⟩ ++
        (" config Addresses.API " ++ "/ip4/127.0.0.1/tcp/5001") :=
  ((setMultiAddrIPFSDaemon_amended ⟨"/app", "/home/orion", fun _ => true⟩
    ⟨none, none, none⟩ "/ip4/127.0.0.1/tcp/5001").1).mpr rfl

end Orion
